import Mathlib

/-!
Verification of the MLB deferred-contract calculator
(`src/utils/calculations.ts`) against its natural-language specification.

Money amounts and rates are embedded as rationals (`ℚ`); the contract
shape parameters `years`, `deferralStartYear` and `payoutDuration` are
naturals, matching the spec's integer constraints.  The two accumulator
loops of `calculateContract` become `Finset` sums, and the
`yearlyBreakdown` loop becomes a `List.map` over the timeline indices,
with the running total rendered as a prefix sum.
-/

/-- Present value of a future payment:
`PV = FV / (1 + rate/100) ^ years` (`calculatePresentValue` in the source;
the rate is given as a percentage). -/
def calculatePresentValue (futureValue : ℚ) (years : ℤ) (rate : ℚ) : ℚ :=
  futureValue / (1 + rate / 100) ^ years

/-- Input terms of the contract (interface `ContractData` in the source). -/
structure ContractData where
  totalValue : ℚ
  years : ℕ
  deferralAmount : ℚ
  deferralStartYear : ℕ
  payoutDuration : ℕ
  interestRate : ℚ
deriving DecidableEq

/-- One timeline year of output (interface `YearlyData` in the source). -/
structure YearlyData where
  year : ℕ
  label : String
  cashPay : ℚ
  deferredEarned : ℚ
  cbtValue : ℚ
  payoutReceived : ℚ
  cumulativeReceived : ℚ
deriving DecidableEq

/-- Aggregate output (interface `CalculationResult` in the source). -/
structure CalculationResult where
  nominalAAV : ℚ
  cbtAAV : ℚ
  totalPresentValue : ℚ
  yearlyBreakdown : List YearlyData
  effectiveDiscount : ℚ
  escrowRequirement : ℚ
deriving DecidableEq

/-- Validity preconditions on the input, from spec §3/§7: the core assumes
`years ≥ 1`, `payoutDuration ≥ 1` and `0 ≤ deferralAmount ≤ totalValue`
(`deferralStartYear ≥ 0` is automatic for a natural). -/
abbrev ValidTerms (d : ContractData) : Prop :=
  1 ≤ d.years ∧ 1 ≤ d.payoutDuration ∧
    0 ≤ d.deferralAmount ∧ d.deferralAmount ≤ d.totalValue

/-- `const yearlySalaryTotal = totalValue / years`. -/
def yearlySalaryTotal (d : ContractData) : ℚ := d.totalValue / d.years

/-- `const yearlyDeferral = deferralAmount / years`. -/
def yearlyDeferral (d : ContractData) : ℚ := d.deferralAmount / d.years

/-- `const yearlyCashSalary = yearlySalaryTotal - yearlyDeferral`. -/
def yearlyCashSalary (d : ContractData) : ℚ :=
  yearlySalaryTotal d - yearlyDeferral d

/-- `const installmentPerPayoutYear = yearlyDeferral / payoutDuration`. -/
def installmentPerPayoutYear (d : ContractData) : ℚ :=
  yearlyDeferral d / d.payoutDuration

/-- `const timeDiff = payoutYear - earningYear` with
`payoutYear = years + deferralStartYear + p` (the discount period of the
inner loop). -/
def timeDiff (d : ContractData) (earningYear p : ℕ) : ℤ :=
  ((d.years : ℤ) + d.deferralStartYear + p) - earningYear

/-- The double loop accumulating `totalDeferredPV` over
`earningYear = 1..years` and `p = 0..payoutDuration-1`, using the input
interest rate. -/
def totalDeferredPV (d : ContractData) : ℚ :=
  ∑ earningYear in Finset.Icc 1 d.years, ∑ p in Finset.range d.payoutDuration,
    calculatePresentValue (installmentPerPayoutYear d) (timeDiff d earningYear p)
      d.interestRate

/-- `const ESCROW_DISCOUNT_RATE = 5.0` (fixed escrow rate, Article XVI). -/
def ESCROW_DISCOUNT_RATE : ℚ := 5

/-- The same double loop accumulating `totalEscrowPV`, always at the fixed
5% escrow rate. -/
def totalEscrowPV (d : ContractData) : ℚ :=
  ∑ earningYear in Finset.Icc 1 d.years, ∑ p in Finset.range d.payoutDuration,
    calculatePresentValue (installmentPerPayoutYear d) (timeDiff d earningYear p)
      ESCROW_DISCOUNT_RATE

/-- `const totalCashValue = yearlyCashSalary * years`. -/
def totalCashValue (d : ContractData) : ℚ := yearlyCashSalary d * d.years

/-- `const totalPresentValue = totalCashValue + totalDeferredPV`. -/
def totalPresentValue (d : ContractData) : ℚ :=
  totalCashValue d + totalDeferredPV d

/-- `const cbtAAV = totalPresentValue / years`. -/
def cbtAAV (d : ContractData) : ℚ := totalPresentValue d / d.years

/-- `const nominalAAV = totalValue / years`. -/
def nominalAAV (d : ContractData) : ℚ := d.totalValue / d.years

/-- `const totalTimeline = Math.max(years, years + deferralStartYear + payoutDuration)`. -/
def totalTimeline (d : ContractData) : ℕ :=
  max d.years (d.years + d.deferralStartYear + d.payoutDuration)

/-- `const yearlyDeferredPayoutCheck = deferralAmount / payoutDuration`. -/
def yearlyDeferredPayoutCheck (d : ContractData) : ℚ :=
  d.deferralAmount / d.payoutDuration

/-- `const payoutStartIndex = years + deferralStartYear`. -/
def payoutStartIndex (d : ContractData) : ℕ :=
  d.years + d.deferralStartYear

/-- `const payoutEndIndex = payoutStartIndex + payoutDuration - 1`. -/
def payoutEndIndex (d : ContractData) : ℕ :=
  payoutStartIndex d + d.payoutDuration - 1

/-- Amount received in timeline year `i`: cash salary during the playing
years plus the deferred payout check inside the payout window (the
`payoutReceived` accumulation of the breakdown loop). -/
def payoutReceivedAt (d : ContractData) (i : ℕ) : ℚ :=
  (if i ≤ d.years then yearlyCashSalary d else 0) +
    (if payoutStartIndex d ≤ i ∧ i ≤ payoutEndIndex d then
      yearlyDeferredPayoutCheck d else 0)

/-- The record pushed onto `yearlyBreakdown` for timeline year `i`; the
source's `runningTotal` accumulator is rendered as the prefix sum of
`payoutReceivedAt`. -/
def yearlyRecordAt (d : ContractData) (i : ℕ) : YearlyData :=
  { year := i
    label := if i ≤ d.years then "Year " ++ toString i
      else "Deferred " ++ toString (i - d.years)
    cashPay := if i ≤ d.years then yearlyCashSalary d else 0
    deferredEarned := if i ≤ d.years then yearlyDeferral d else 0
    cbtValue := if i ≤ d.years then cbtAAV d else 0
    payoutReceived := payoutReceivedAt d i
    cumulativeReceived := ∑ j in Finset.Icc 1 i, payoutReceivedAt d j }

/-- `calculateContract` from the source: assembles the summary metrics,
the yearly breakdown over timeline years `1..totalTimeline`, the
effective discount percentage and the escrow requirement. -/
def calculateContract (d : ContractData) : CalculationResult :=
  { nominalAAV := nominalAAV d
    cbtAAV := cbtAAV d
    totalPresentValue := totalPresentValue d
    yearlyBreakdown := (List.range (totalTimeline d)).map
      (fun k => yearlyRecordAt d (k + 1))
    effectiveDiscount := ((nominalAAV d - cbtAAV d) / nominalAAV d) * 100
    escrowRequirement := totalEscrowPV d }

/-- The spec's per-earning-year recognized ("tax") value for earning year
`e` (§4.2 steps 2–3): the undiscounted cash salary plus the sum of the
discounted installments attributed to year `e`.  Stated from the spec's
words, to be compared with what the code stores in `cbtValue`. -/
def specRecognizedValue (d : ContractData) (e : ℕ) : ℚ :=
  yearlyCashSalary d + ∑ p in Finset.range d.payoutDuration,
    calculatePresentValue (installmentPerPayoutYear d) (timeDiff d e p)
      d.interestRate

/-- The Ohtani-style demonstration terms used by the spec's scenarios. -/
def demoTerms : ContractData :=
  { totalValue := 700000000
    years := 10
    deferralAmount := 680000000
    deferralStartYear := 1
    payoutDuration := 10
    interestRate := 443 / 100 }

lemma sum_map_range {M : Type*} [AddCommMonoid M] (n : ℕ) (f : ℕ → M) :
    ((List.range n).map f).sum = ∑ k in Finset.range n, f k := by
  induction n with
  | zero => simp
  | succ n ih =>
      rw [List.range_succ, List.map_append, List.sum_append,
        Finset.sum_range_succ, ih]
      simp

lemma yearlyBreakdown_length (d : ContractData) :
    (calculateContract d).yearlyBreakdown.length = totalTimeline d := by
  simp [calculateContract]

lemma yearlyBreakdown_get (d : ContractData) (k : ℕ)
    (h : k < (calculateContract d).yearlyBreakdown.length) :
    (calculateContract d).yearlyBreakdown.get ⟨k, h⟩ =
      yearlyRecordAt d (k + 1) := by
  simp [calculateContract, List.get_eq_getElem]

lemma filter_window_eq (T a b : ℕ) :
    (Finset.range T).filter (fun k => a ≤ k + 1 ∧ k + 1 ≤ b) =
      Finset.Ico (a - 1) (min b T) := by
  ext k
  simp only [Finset.mem_filter, Finset.mem_range, Finset.mem_Ico, lt_min_iff]
  omega

lemma sum_if_window (T a b : ℕ) (c : ℚ) (ha : 1 ≤ a) (hbT : b ≤ T) :
    (∑ k in Finset.range T, if a ≤ k + 1 ∧ k + 1 ≤ b then c else 0) =
      ((b + 1 - a : ℕ) : ℚ) * c := by
  rw [← Finset.sum_filter, filter_window_eq, Finset.sum_const,
    Nat.card_Ico, nsmul_eq_mul]
  congr 2
  omega

lemma sum_if_le (T y : ℕ) (c : ℚ) (hyT : y ≤ T) :
    (∑ k in Finset.range T, if k + 1 ≤ y then c else 0) = (y : ℚ) * c := by
  have h : ∀ k : ℕ, (if k + 1 ≤ y then c else 0) =
      (if 1 ≤ k + 1 ∧ k + 1 ≤ y then c else 0) := by
    intro k
    exact if_congr (by omega) rfl rfl
  simp only [h]
  rw [sum_if_window T 1 y c le_rfl hyT]
  norm_num

/-- C4: the yearly breakdown has exactly
`max(years, years + deferralStartYear + payoutDuration)` entries and its
`year` fields are `1, 2, ..., N` in order, with no gaps and no repeats. -/
theorem yearlyBreakdown_timeline (d : ContractData) (hv : ValidTerms d) :
    (calculateContract d).yearlyBreakdown.length =
      max d.years (d.years + d.deferralStartYear + d.payoutDuration) ∧
    ∀ k (h : k < (calculateContract d).yearlyBreakdown.length),
      ((calculateContract d).yearlyBreakdown.get ⟨k, h⟩).year = k + 1 := by
  refine ⟨yearlyBreakdown_length d, fun k h => ?_⟩
  rw [yearlyBreakdown_get]
  rfl

/-- Witness for C4 at the demonstration terms. -/
theorem yearlyBreakdown_timeline_witness :
    ValidTerms demoTerms ∧
    ((calculateContract demoTerms).yearlyBreakdown.length =
      max demoTerms.years (demoTerms.years + demoTerms.deferralStartYear +
        demoTerms.payoutDuration) ∧
    ∀ k (h : k < (calculateContract demoTerms).yearlyBreakdown.length),
      ((calculateContract demoTerms).yearlyBreakdown.get ⟨k, h⟩).year =
        k + 1) :=
  ⟨by decide, yearlyBreakdown_timeline demoTerms (by decide)⟩

/-- C2: summing the cash-salary field over all yearly records, plus the
deferred-payout portion of the amount received (`payoutReceived` minus
the cash-salary field) over all yearly records, reproduces `totalValue`
exactly in rational arithmetic. -/
theorem conservation (d : ContractData) (hv : ValidTerms d) :
    ((calculateContract d).yearlyBreakdown.map (fun r => r.cashPay)).sum +
      ((calculateContract d).yearlyBreakdown.map
        (fun r => r.payoutReceived - r.cashPay)).sum = d.totalValue := by
  obtain ⟨hy, hp, hd0, hdt⟩ := hv
  have hyQ : (d.years : ℚ) ≠ 0 := Nat.cast_ne_zero.mpr (by omega)
  have hpQ : (d.payoutDuration : ℚ) ≠ 0 := Nat.cast_ne_zero.mpr (by omega)
  have hcash : ∀ k : ℕ, (yearlyRecordAt d (k + 1)).cashPay =
      (if k + 1 ≤ d.years then yearlyCashSalary d else 0) := fun _ => rfl
  have hrecv : ∀ k : ℕ, (yearlyRecordAt d (k + 1)).payoutReceived -
      (if k + 1 ≤ d.years then yearlyCashSalary d else 0) =
      (if payoutStartIndex d ≤ k + 1 ∧ k + 1 ≤ payoutEndIndex d then
        yearlyDeferredPayoutCheck d else 0) := by
    intro k
    show payoutReceivedAt d (k + 1) - _ = _
    rw [payoutReceivedAt]
    exact add_sub_cancel_left _ _
  simp only [calculateContract, List.map_map, Function.comp_def,
    sum_map_range, hcash, hrecv]
  rw [sum_if_le (totalTimeline d) d.years (yearlyCashSalary d)
      (le_max_left _ _),
    sum_if_window (totalTimeline d) (payoutStartIndex d) (payoutEndIndex d)
      (yearlyDeferredPayoutCheck d)
      (by simp only [payoutStartIndex]; omega)
      (by simp only [payoutEndIndex, payoutStartIndex, totalTimeline]; omega)]
  have hcount : payoutEndIndex d + 1 - payoutStartIndex d =
      d.payoutDuration := by
    simp only [payoutEndIndex, payoutStartIndex]
    omega
  rw [hcount, yearlyCashSalary, yearlySalaryTotal, yearlyDeferral,
    yearlyDeferredPayoutCheck]
  field_simp

/-- Witness for C2 at the demonstration terms. -/
theorem conservation_witness :
    ValidTerms demoTerms ∧
    ((calculateContract demoTerms).yearlyBreakdown.map
        (fun r => r.cashPay)).sum +
      ((calculateContract demoTerms).yearlyBreakdown.map
        (fun r => r.payoutReceived - r.cashPay)).sum =
      demoTerms.totalValue :=
  ⟨by decide, conservation demoTerms (by decide)⟩

/-- C3: `calculatePresentValue` computes exactly
`futureAmount / (1 + annualRatePercent/100) ^ yearsOfDelay` for every
future amount, every (possibly negative or zero) integer delay, and every
rate above −100; the hypothesis also makes the discount base positive. -/
theorem calculatePresentValue_formula (futureValue : ℚ) (yearsOfDelay : ℤ)
    (rate : ℚ) (hr : -100 < rate) :
    calculatePresentValue futureValue yearsOfDelay rate =
      futureValue / (1 + rate / 100) ^ yearsOfDelay ∧
      (0 : ℚ) < 1 + rate / 100 := by
  refine ⟨rfl, ?_⟩
  linarith

/-- Witness for C3 at a concrete input. -/
theorem calculatePresentValue_formula_witness :
    calculatePresentValue 100 2 100 = 100 / (1 + 100 / 100) ^ (2 : ℤ) ∧
      (0 : ℚ) < 1 + 100 / 100 :=
  calculatePresentValue_formula 100 2 100 (by norm_num)

/-- C6: with a zero interest rate the discounting has no effect — the
tax AAV equals the nominal AAV exactly and the effective discount is 0. -/
theorem zero_rate_idempotence (d : ContractData) (hv : ValidTerms d)
    (hr : d.interestRate = 0) :
    (calculateContract d).cbtAAV = (calculateContract d).nominalAAV ∧
      (calculateContract d).effectiveDiscount = 0 := by
  obtain ⟨hy, hp, _, _⟩ := hv
  have hyQ : (d.years : ℚ) ≠ 0 := Nat.cast_ne_zero.mpr (by omega)
  have hpQ : (d.payoutDuration : ℚ) ≠ 0 := Nat.cast_ne_zero.mpr (by omega)
  have hPV : ∀ e p : ℕ, calculatePresentValue (installmentPerPayoutYear d)
      (timeDiff d e p) d.interestRate = installmentPerPayoutYear d := by
    intro e p
    rw [hr, calculatePresentValue]
    norm_num
  have hS : totalDeferredPV d = d.deferralAmount := by
    rw [totalDeferredPV]
    simp only [hPV]
    simp only [Finset.sum_const, Nat.card_Icc, Finset.card_range,
      nsmul_eq_mul, Nat.add_sub_cancel, installmentPerPayoutYear,
      yearlyDeferral]
    field_simp
    ring
  have hmain : cbtAAV d = nominalAAV d := by
    rw [cbtAAV, totalPresentValue, totalCashValue, yearlyCashSalary,
      yearlySalaryTotal, yearlyDeferral, hS, nominalAAV]
    field_simp
  simp only [calculateContract]
  exact ⟨hmain, by rw [hmain, sub_self, zero_div, zero_mul]⟩

/-- Witness for C6 at a zero-rate variant of the demonstration terms. -/
theorem zero_rate_idempotence_witness :
    ValidTerms { demoTerms with interestRate := 0 } ∧
    ((calculateContract { demoTerms with interestRate := 0 }).cbtAAV =
      (calculateContract { demoTerms with interestRate := 0 }).nominalAAV ∧
    (calculateContract { demoTerms with interestRate := 0 }).effectiveDiscount
      = 0) :=
  ⟨by decide, zero_rate_idempotence { demoTerms with interestRate := 0 }
    (by decide) rfl⟩

/-- C7: with zero deferral every yearly record's recognized value equals
its cash-salary field, the cash salary of every earning year is the plain
`totalValue / years`, and the tax AAV equals the nominal AAV. -/
theorem zero_deferral_degeneration (d : ContractData) (hv : ValidTerms d)
    (hd : d.deferralAmount = 0) :
    (∀ k (h : k < (calculateContract d).yearlyBreakdown.length),
      ((calculateContract d).yearlyBreakdown.get ⟨k, h⟩).cbtValue =
        ((calculateContract d).yearlyBreakdown.get ⟨k, h⟩).cashPay) ∧
    (∀ k (h : k < (calculateContract d).yearlyBreakdown.length),
      k + 1 ≤ d.years →
      ((calculateContract d).yearlyBreakdown.get ⟨k, h⟩).cashPay =
        d.totalValue / d.years) ∧
    (calculateContract d).cbtAAV = (calculateContract d).nominalAAV := by
  obtain ⟨hy, hp, _, _⟩ := hv
  have hyQ : (d.years : ℚ) ≠ 0 := Nat.cast_ne_zero.mpr (by omega)
  have hdef : yearlyDeferral d = 0 := by
    rw [yearlyDeferral, hd, zero_div]
  have hcashVal : yearlyCashSalary d = d.totalValue / d.years := by
    rw [yearlyCashSalary, yearlySalaryTotal, hdef, sub_zero]
  have hS : totalDeferredPV d = 0 := by
    rw [totalDeferredPV]
    refine Finset.sum_eq_zero fun e _ => Finset.sum_eq_zero fun p _ => ?_
    rw [calculatePresentValue, installmentPerPayoutYear, hdef, zero_div,
      zero_div]
  have hmain : cbtAAV d = nominalAAV d := by
    rw [cbtAAV, totalPresentValue, totalCashValue, hcashVal, hS, add_zero,
      nominalAAV, div_mul_cancel₀ _ hyQ]
  have hcbtCash : cbtAAV d = yearlyCashSalary d := by
    rw [hmain, nominalAAV, ← hcashVal]
  refine ⟨fun k h => ?_, fun k h hk => ?_, ?_⟩
  · rw [yearlyBreakdown_get]
    show (if k + 1 ≤ d.years then cbtAAV d else 0) =
      (if k + 1 ≤ d.years then yearlyCashSalary d else 0)
    rw [hcbtCash]
  · rw [yearlyBreakdown_get]
    show (if k + 1 ≤ d.years then yearlyCashSalary d else 0) = _
    rw [if_pos hk, hcashVal]
  · simpa only [calculateContract] using hmain

/-- Witness for C7 at a zero-deferral variant of the demonstration terms. -/
theorem zero_deferral_degeneration_witness :
    ValidTerms { demoTerms with deferralAmount := 0 } ∧
    ((∀ k (h : k < (calculateContract { demoTerms with deferralAmount := 0
        }).yearlyBreakdown.length),
      ((calculateContract { demoTerms with deferralAmount := 0
        }).yearlyBreakdown.get ⟨k, h⟩).cbtValue =
        ((calculateContract { demoTerms with deferralAmount := 0
          }).yearlyBreakdown.get ⟨k, h⟩).cashPay) ∧
    (∀ k (h : k < (calculateContract { demoTerms with deferralAmount := 0
        }).yearlyBreakdown.length),
      k + 1 ≤ ({ demoTerms with deferralAmount := 0 } : ContractData).years →
      ((calculateContract { demoTerms with deferralAmount := 0
        }).yearlyBreakdown.get ⟨k, h⟩).cashPay =
        ({ demoTerms with deferralAmount := 0 } : ContractData).totalValue /
          ({ demoTerms with deferralAmount := 0 } : ContractData).years) ∧
    (calculateContract { demoTerms with deferralAmount := 0 }).cbtAAV =
      (calculateContract { demoTerms with deferralAmount := 0
        }).nominalAAV) :=
  ⟨by decide, zero_deferral_degeneration
    { demoTerms with deferralAmount := 0 } (by decide) rfl⟩

/-- C1 fails on the code: at `totalValue = 200`, `years = 2`,
`deferralAmount = 200`, `deferralStartYear = 0`, `payoutDuration = 1`,
`interestRate = 100`, the record of earning year 1 stores the uniform
average `75`, while the spec's per-earning-year attribution for year 1 is
`50`. -/
theorem cbtValue_attribution_counterexample :
    ValidTerms ⟨200, 2, 200, 0, 1, 100⟩ ∧
    ((calculateContract ⟨200, 2, 200, 0, 1, 100⟩).yearlyBreakdown.get
        ⟨0, by decide⟩).cbtValue ≠
      specRecognizedValue ⟨200, 2, 200, 0, 1, 100⟩ 1 := by
  refine ⟨by decide, ?_⟩
  rw [yearlyBreakdown_get]
  have hIcc : Finset.Icc (1 : ℕ) 2 = {1, 2} := by decide
  norm_num [hIcc, yearlyRecordAt, cbtAAV, totalPresentValue, totalCashValue,
    totalDeferredPV, yearlyCashSalary, yearlySalaryTotal, yearlyDeferral,
    installmentPerPayoutYear, timeDiff, calculatePresentValue,
    specRecognizedValue, Finset.sum_range_succ, Finset.sum_range_zero,
    Finset.sum_pair]

/-- C1 amended: the recognized value stored in every earning-year record
is the uniform average of the spec's per-earning-year recognized values
(the `cbtAAV`), not the per-year attribution itself. -/
theorem cbtValue_uniform_average (d : ContractData) (hv : ValidTerms d) :
    ∀ k (h : k < (calculateContract d).yearlyBreakdown.length),
      k + 1 ≤ d.years →
      ((calculateContract d).yearlyBreakdown.get ⟨k, h⟩).cbtValue =
        (∑ e in Finset.Icc 1 d.years, specRecognizedValue d e) / d.years := by
  intro k h hk
  rw [yearlyBreakdown_get]
  show (if k + 1 ≤ d.years then cbtAAV d else 0) = _
  rw [if_pos hk, cbtAAV, totalPresentValue]
  congr 1
  simp only [specRecognizedValue, Finset.sum_add_distrib, Finset.sum_const,
    Nat.card_Icc, nsmul_eq_mul, Nat.add_sub_cancel]
  rw [totalCashValue, totalDeferredPV]
  ring

/-- Witness for the amended C1 at the demonstration terms, year 1. -/
theorem cbtValue_uniform_average_witness :
    ValidTerms demoTerms ∧ 0 + 1 ≤ demoTerms.years ∧
    ((calculateContract demoTerms).yearlyBreakdown.get
        ⟨0, by decide⟩).cbtValue =
      (∑ e in Finset.Icc 1 demoTerms.years, specRecognizedValue demoTerms e) /
        demoTerms.years :=
  ⟨by decide, by decide,
    cbtValue_uniform_average demoTerms (by decide) 0 (by decide) (by decide)⟩

lemma pv_le_pv (x B₁ B₂ : ℚ) (z : ℤ) (hx : 0 ≤ x) (hB₁ : 0 < B₁)
    (hB : B₁ ≤ B₂) (hz : 0 ≤ z) : x / B₂ ^ z ≤ x / B₁ ^ z := by
  obtain ⟨n, rfl⟩ : ∃ n : ℕ, z = (n : ℤ) :=
    ⟨z.toNat, (Int.toNat_of_nonneg hz).symm⟩
  rw [zpow_natCast, zpow_natCast]
  exact div_le_div_of_nonneg_left hx (pow_pos hB₁ n)
    (pow_le_pow_left₀ hB₁.le hB n)

lemma pv_lt_pv (x B₁ B₂ : ℚ) (z : ℤ) (hx : 0 < x) (hB₁ : 0 < B₁)
    (hB : B₁ < B₂) (hz : 1 ≤ z) : x / B₂ ^ z < x / B₁ ^ z := by
  obtain ⟨n, rfl⟩ : ∃ n : ℕ, z = (n : ℤ) :=
    ⟨z.toNat, (Int.toNat_of_nonneg (by omega)).symm⟩
  have hn : n ≠ 0 := by omega
  rw [zpow_natCast, zpow_natCast]
  exact div_lt_div_of_pos_left hx (pow_pos hB₁ n)
    (pow_lt_pow_left₀ hB hB₁.le hn)

lemma doubleSum_lt (y dsy pd : ℕ) (x B₁ B₂ : ℚ) (hy : 1 ≤ y)
    (hp : 1 ≤ pd) (hx : 0 < x) (hB₁ : 0 < B₁) (hB : B₁ < B₂)
    (hlen : 2 < y + dsy + pd) :
    (∑ e in Finset.Icc 1 y, ∑ p in Finset.range pd,
        x / B₂ ^ ((y : ℤ) + (dsy : ℤ) + (p : ℤ) - (e : ℤ))) <
      ∑ e in Finset.Icc 1 y, ∑ p in Finset.range pd,
        x / B₁ ^ ((y : ℤ) + (dsy : ℤ) + (p : ℤ) - (e : ℤ)) := by
  apply Finset.sum_lt_sum
  · intro e he
    rw [Finset.mem_Icc] at he
    exact Finset.sum_le_sum fun p _ =>
      pv_le_pv _ _ _ _ hx.le hB₁ hB.le (by omega)
  · refine ⟨1, Finset.mem_Icc.mpr ⟨le_refl 1, hy⟩, ?_⟩
    apply Finset.sum_lt_sum
    · intro p _
      exact pv_le_pv _ _ _ _ hx.le hB₁ hB.le (by omega)
    · exact ⟨pd - 1, Finset.mem_range.mpr (by omega),
        pv_lt_pv _ _ _ _ hx hB₁ hB (by omega)⟩

/-- C5 fails on the code in the degenerate case
`years = 1, deferralStartYear = 0, payoutDuration = 1`: the single
deferred installment is then discounted over a zero-year delay, so the
tax AAV (and the effective discount) is the same at interest rate 100 as
at interest rate 0, not strictly smaller (resp. larger). -/
theorem monotonic_discount_counterexample :
    ValidTerms ⟨100, 1, 100, 0, 1, 0⟩ ∧
    (0 : ℚ) < (⟨100, 1, 100, 0, 1, 0⟩ : ContractData).deferralAmount ∧
    (⟨100, 1, 100, 0, 1, 0⟩ : ContractData).interestRate <
      (⟨100, 1, 100, 0, 1, 100⟩ : ContractData).interestRate ∧
    ¬ ((calculateContract ⟨100, 1, 100, 0, 1, 100⟩).cbtAAV <
        (calculateContract ⟨100, 1, 100, 0, 1, 0⟩).cbtAAV) ∧
    ¬ ((calculateContract ⟨100, 1, 100, 0, 1, 0⟩).effectiveDiscount <
        (calculateContract ⟨100, 1, 100, 0, 1, 100⟩).effectiveDiscount) := by
  have h₁ : (calculateContract ⟨100, 1, 100, 0, 1, 100⟩).cbtAAV = 100 := by
    norm_num [calculateContract, cbtAAV, totalPresentValue, totalCashValue,
      totalDeferredPV, yearlyCashSalary, yearlySalaryTotal, yearlyDeferral,
      installmentPerPayoutYear, timeDiff, calculatePresentValue,
      Finset.sum_range_succ, Finset.sum_range_zero, Finset.Icc_self,
      Finset.sum_singleton]
  have h₂ : (calculateContract ⟨100, 1, 100, 0, 1, 0⟩).cbtAAV = 100 := by
    norm_num [calculateContract, cbtAAV, totalPresentValue, totalCashValue,
      totalDeferredPV, yearlyCashSalary, yearlySalaryTotal, yearlyDeferral,
      installmentPerPayoutYear, timeDiff, calculatePresentValue,
      Finset.sum_range_succ, Finset.sum_range_zero, Finset.Icc_self,
      Finset.sum_singleton]
  have e₁ : (calculateContract ⟨100, 1, 100, 0, 1, 100⟩).effectiveDiscount =
      ((nominalAAV ⟨100, 1, 100, 0, 1, 100⟩ -
        (calculateContract ⟨100, 1, 100, 0, 1, 100⟩).cbtAAV) /
          nominalAAV ⟨100, 1, 100, 0, 1, 100⟩) * 100 := rfl
  have e₂ : (calculateContract ⟨100, 1, 100, 0, 1, 0⟩).effectiveDiscount =
      ((nominalAAV ⟨100, 1, 100, 0, 1, 0⟩ -
        (calculateContract ⟨100, 1, 100, 0, 1, 0⟩).cbtAAV) /
          nominalAAV ⟨100, 1, 100, 0, 1, 0⟩) * 100 := rfl
  refine ⟨by decide, by decide, by decide, ?_, ?_⟩
  · rw [h₁, h₂]
    exact lt_irrefl _
  · rw [e₁, e₂, h₁, h₂]
    exact lt_irrefl _

/-- C5 amended: increasing the interest rate strictly decreases the tax
AAV and strictly increases the effective discount, for valid terms with
positive deferral and rates above −100, provided additionally
`years + deferralStartYear + payoutDuration > 2` — i.e. excluding the
degenerate shape `years = 1, deferralStartYear = 0, payoutDuration = 1`,
where the only installment has zero delay and the tax AAV does not depend
on the rate. -/
theorem monotonic_discount (d : ContractData) (hv : ValidTerms d)
    (hdef : 0 < d.deferralAmount)
    (hlen : 2 < d.years + d.deferralStartYear + d.payoutDuration)
    (r₁ r₂ : ℚ) (h₁ : -100 < r₁) (h₁₂ : r₁ < r₂) :
    (calculateContract { d with interestRate := r₂ }).cbtAAV <
      (calculateContract { d with interestRate := r₁ }).cbtAAV ∧
    (calculateContract { d with interestRate := r₁ }).effectiveDiscount <
      (calculateContract { d with interestRate := r₂ }).effectiveDiscount := by
  obtain ⟨hy, hp, hd0, hdt⟩ := hv
  have hyQ : (0 : ℚ) < d.years := Nat.cast_pos.mpr (by omega)
  have hpQ : (0 : ℚ) < d.payoutDuration := Nat.cast_pos.mpr (by omega)
  have hinst : 0 < installmentPerPayoutYear d := by
    rw [installmentPerPayoutYear, yearlyDeferral]
    exact div_pos (div_pos hdef hyQ) hpQ
  have hB₁ : (0 : ℚ) < 1 + r₁ / 100 := by linarith
  have hBB : 1 + r₁ / 100 < 1 + r₂ / 100 := by linarith
  have hpv : ∀ r : ℚ, totalDeferredPV { d with interestRate := r } =
      ∑ e in Finset.Icc 1 d.years, ∑ p in Finset.range d.payoutDuration,
        installmentPerPayoutYear d /
          (1 + r / 100) ^
            ((d.years : ℤ) + (d.deferralStartYear : ℤ) + (p : ℤ) - (e : ℤ)) :=
    fun r => rfl
  have hS : totalDeferredPV { d with interestRate := r₂ } <
      totalDeferredPV { d with interestRate := r₁ } := by
    rw [hpv r₁, hpv r₂]
    exact doubleSum_lt d.years d.deferralStartYear d.payoutDuration
      (installmentPerPayoutYear d) _ _ hy hp hinst hB₁ hBB hlen
  have hc : ∀ r : ℚ, (calculateContract { d with interestRate := r }).cbtAAV =
      (totalCashValue d + totalDeferredPV { d with interestRate := r }) /
        (d.years : ℚ) := fun r => rfl
  have hcbt : (calculateContract { d with interestRate := r₂ }).cbtAAV <
      (calculateContract { d with interestRate := r₁ }).cbtAAV := by
    rw [hc r₁, hc r₂]
    exact (div_lt_div_iff_of_pos_right hyQ).mpr (by linarith)
  refine ⟨hcbt, ?_⟩
  have hnom : (0 : ℚ) < nominalAAV d := by
    rw [nominalAAV]
    exact div_pos (lt_of_lt_of_le hdef hdt) hyQ
  have he : ∀ r : ℚ,
      (calculateContract { d with interestRate := r }).effectiveDiscount =
      ((nominalAAV d -
        (calculateContract { d with interestRate := r }).cbtAAV) /
          nominalAAV d) * 100 := fun r => rfl
  rw [he r₁, he r₂]
  have hsub : nominalAAV d -
      (calculateContract { d with interestRate := r₁ }).cbtAAV <
      nominalAAV d -
        (calculateContract { d with interestRate := r₂ }).cbtAAV := by
    linarith
  exact mul_lt_mul_of_pos_right ((div_lt_div_iff_of_pos_right hnom).mpr hsub)
    (by norm_num)

/-- Witness for the amended C5 at the demonstration terms with rates 2
and 5. -/
theorem monotonic_discount_witness :
    ValidTerms demoTerms ∧ 0 < demoTerms.deferralAmount ∧
    2 < demoTerms.years + demoTerms.deferralStartYear +
      demoTerms.payoutDuration ∧
    (-100 : ℚ) < 2 ∧ (2 : ℚ) < 5 ∧
    ((calculateContract { demoTerms with interestRate := 5 }).cbtAAV <
      (calculateContract { demoTerms with interestRate := 2 }).cbtAAV ∧
    (calculateContract { demoTerms with interestRate := 2 }).effectiveDiscount
      < (calculateContract { demoTerms with
          interestRate := 5 }).effectiveDiscount) :=
  ⟨by decide, by decide, by decide, by decide, by decide,
    monotonic_discount demoTerms (by decide) (by decide) (by decide) 2 5
      (by decide) (by decide)⟩

/-- C8 fails on the code in its timeline-length part: at the pure-cash
scenario the breakdown has `max(5, 5 + 1 + 5) = 11` entries, not 5. -/
theorem pure_cash_scenario_counterexample :
    (calculateContract ⟨100000000, 5, 0, 1, 5, 9 / 2⟩).yearlyBreakdown.length
      ≠ 5 := by
  rw [yearlyBreakdown_length]
  decide

/-- C8 amended: the pure-cash scenario yields
`nominalAAV = taxAAV = 20000000` and `effectiveDiscount = 0` as claimed,
but a yearly breakdown of `max(5, 5 + 1 + 5) = 11` entries, not 5. -/
theorem pure_cash_scenario :
    (calculateContract ⟨100000000, 5, 0, 1, 5, 9 / 2⟩).nominalAAV =
      20000000 ∧
    (calculateContract ⟨100000000, 5, 0, 1, 5, 9 / 2⟩).cbtAAV = 20000000 ∧
    (calculateContract ⟨100000000, 5, 0, 1, 5, 9 / 2⟩).effectiveDiscount =
      0 ∧
    (calculateContract ⟨100000000, 5, 0, 1, 5, 9 / 2⟩).yearlyBreakdown.length
      = 11 := by
  have hIcc : Finset.Icc (1 : ℕ) 5 = {1, 2, 3, 4, 5} := by decide
  refine ⟨by norm_num [calculateContract, nominalAAV], ?_, ?_, ?_⟩
  · norm_num [hIcc, calculateContract, cbtAAV, totalPresentValue,
      totalCashValue, totalDeferredPV, yearlyCashSalary, yearlySalaryTotal,
      yearlyDeferral, installmentPerPayoutYear, timeDiff,
      calculatePresentValue, Finset.sum_range_succ, Finset.sum_range_zero,
      Finset.sum_insert, Finset.sum_singleton, Finset.mem_insert,
      Finset.mem_singleton]
  · norm_num [hIcc, calculateContract, cbtAAV, nominalAAV,
      totalPresentValue, totalCashValue, totalDeferredPV, yearlyCashSalary,
      yearlySalaryTotal, yearlyDeferral, installmentPerPayoutYear, timeDiff,
      calculatePresentValue, Finset.sum_range_succ, Finset.sum_range_zero,
      Finset.sum_insert, Finset.sum_singleton, Finset.mem_insert,
      Finset.mem_singleton]
  · rw [yearlyBreakdown_length]
    decide

/-- C9 fails on the code: with `deferralStartYear = 0` the payout window
begins at timeline index `years` itself (the final earning year), not
`years + 1` — at `years = 1, payoutDuration = 1` the year-1 record
receives a deferred installment on top of its cash salary, and the
year-2 record receives nothing. -/
theorem deferralStart_zero_counterexample :
    ValidTerms ⟨100, 1, 100, 0, 1, 100⟩ ∧
    (⟨100, 1, 100, 0, 1, 100⟩ : ContractData).deferralStartYear = 0 ∧
    ((calculateContract ⟨100, 1, 100, 0, 1, 100⟩).yearlyBreakdown.get
        ⟨0, by decide⟩).payoutReceived ≠
      ((calculateContract ⟨100, 1, 100, 0, 1, 100⟩).yearlyBreakdown.get
        ⟨0, by decide⟩).cashPay ∧
    ((calculateContract ⟨100, 1, 100, 0, 1, 100⟩).yearlyBreakdown.get
        ⟨1, by decide⟩).payoutReceived = 0 := by
  refine ⟨by decide, rfl, ?_, ?_⟩
  · rw [yearlyBreakdown_get]
    norm_num [yearlyRecordAt, payoutReceivedAt, payoutStartIndex,
      payoutEndIndex, yearlyDeferredPayoutCheck, yearlyCashSalary,
      yearlySalaryTotal, yearlyDeferral]
  · rw [yearlyBreakdown_get]
    norm_num [yearlyRecordAt, payoutReceivedAt, payoutStartIndex,
      payoutEndIndex, yearlyDeferredPayoutCheck, yearlyCashSalary,
      yearlySalaryTotal, yearlyDeferral]

/-- C9 amended: with `deferralStartYear = 0` the payout window begins at
timeline index `years` — overlapping the final earning year — so records
strictly before year `years` receive only their cash salary, while the
year-`years` record receives its cash salary plus a deferred installment
`deferralAmount / payoutDuration` (the smallest discount delay is 0, not
1). -/
theorem deferralStart_zero_window (d : ContractData) (hv : ValidTerms d)
    (h0 : d.deferralStartYear = 0) :
    (∀ k (h : k < (calculateContract d).yearlyBreakdown.length),
      k + 1 < d.years →
      ((calculateContract d).yearlyBreakdown.get ⟨k, h⟩).payoutReceived =
        ((calculateContract d).yearlyBreakdown.get ⟨k, h⟩).cashPay) ∧
    ∀ (h : d.years - 1 < (calculateContract d).yearlyBreakdown.length),
      ((calculateContract d).yearlyBreakdown.get
        ⟨d.years - 1, h⟩).payoutReceived =
        ((calculateContract d).yearlyBreakdown.get
          ⟨d.years - 1, h⟩).cashPay +
          d.deferralAmount / d.payoutDuration := by
  obtain ⟨hy, hp, _, _⟩ := hv
  constructor
  · intro k h hk
    rw [yearlyBreakdown_get]
    show payoutReceivedAt d (k + 1) =
      (if k + 1 ≤ d.years then yearlyCashSalary d else 0)
    rw [payoutReceivedAt]
    have hwin : ¬ (payoutStartIndex d ≤ k + 1 ∧ k + 1 ≤ payoutEndIndex d) := by
      rw [payoutStartIndex, h0]
      omega
    rw [if_neg hwin, add_zero]
  · intro h
    rw [yearlyBreakdown_get]
    have hidx : d.years - 1 + 1 = d.years := by omega
    rw [hidx]
    show payoutReceivedAt d d.years =
      (if d.years ≤ d.years then yearlyCashSalary d else 0) +
        d.deferralAmount / d.payoutDuration
    rw [payoutReceivedAt]
    have hwin : payoutStartIndex d ≤ d.years ∧ d.years ≤ payoutEndIndex d := by
      rw [payoutEndIndex, payoutStartIndex, h0]
      omega
    rw [if_pos hwin]
    rfl

/-- Witness for the amended C9 at the demonstration terms with
`deferralStartYear = 0`. -/
theorem deferralStart_zero_window_witness :
    ValidTerms { demoTerms with deferralStartYear := 0 } ∧
    ((∀ k (h : k < (calculateContract { demoTerms with deferralStartYear :=
        0 }).yearlyBreakdown.length),
      k + 1 < ({ demoTerms with deferralStartYear := 0 } :
        ContractData).years →
      ((calculateContract { demoTerms with deferralStartYear := 0
        }).yearlyBreakdown.get ⟨k, h⟩).payoutReceived =
        ((calculateContract { demoTerms with deferralStartYear := 0
          }).yearlyBreakdown.get ⟨k, h⟩).cashPay) ∧
    ∀ (h : ({ demoTerms with deferralStartYear := 0 } :
        ContractData).years - 1 <
        (calculateContract { demoTerms with deferralStartYear := 0
          }).yearlyBreakdown.length),
      ((calculateContract { demoTerms with deferralStartYear := 0
        }).yearlyBreakdown.get
        ⟨({ demoTerms with deferralStartYear := 0 } :
          ContractData).years - 1, h⟩).payoutReceived =
        ((calculateContract { demoTerms with deferralStartYear := 0
          }).yearlyBreakdown.get
          ⟨({ demoTerms with deferralStartYear := 0 } :
            ContractData).years - 1, h⟩).cashPay +
          ({ demoTerms with deferralStartYear := 0 } :
            ContractData).deferralAmount /
            ({ demoTerms with deferralStartYear := 0 } :
              ContractData).payoutDuration) :=
  ⟨by decide, deferralStart_zero_window
    { demoTerms with deferralStartYear := 0 } (by decide) rfl⟩

/-- C10: the escrow requirement returned by `calculateContract` does not
depend on the `interestRate` input — it is the double-loop present value
taken at the hard-coded 5% escrow discount rate. -/
theorem escrowRequirement_independent_of_rate (d : ContractData)
    (r₁ r₂ : ℚ) :
    (calculateContract { d with interestRate := r₁ }).escrowRequirement =
      (calculateContract { d with interestRate := r₂ }).escrowRequirement ∧
    (calculateContract d).escrowRequirement =
      ∑ earningYear in Finset.Icc 1 d.years,
        ∑ p in Finset.range d.payoutDuration,
          calculatePresentValue (installmentPerPayoutYear d)
            (timeDiff d earningYear p) 5 :=
  ⟨rfl, rfl⟩
